import Mathlib

/-!
Verification of the Teledyne power-analyser serial-driver scripts
(`Teledyne_Final_W_Integrator.py` and `t3pm1006_avgAC.py`).

The scripts are shallowly embedded: pure helpers become Lean functions,
the serial line is modelled as an explicit trace of I/O events
(write successes, read results, simulated timestamps), and floating-point
values are modelled as rationals.  Python string operations used by the
scripts (`split(",")`, `upper()`, `strip()`, `in`, `float(...)`) are
re-implemented over character lists so that every definition evaluates
inside the kernel.
-/

namespace Teledyne

/-- Python `needle in hay` at the head: the needle is an initial segment of the haystack. -/
def chainEq : List Char → List Char → Bool
| [], _ => true
| _ :: _, [] => false
| a :: as, b :: bs => (a = b) && chainEq as bs

/-- Python `needle in hay`: the needle occurs somewhere in the haystack. -/
def hasSub : List Char → List Char → Bool
| n, [] => n.isEmpty
| n, c :: cs => chainEq n (c :: cs) || hasSub n cs

/-- `containsSub needle hay` models Python's `needle in hay` on strings. -/
def containsSub (needle hay : String) : Bool :=
  hasSub needle.toList hay.toList

/-- Python `s.split(",")` on a character list. -/
def splitCommaChars : List Char → List (List Char)
| [] => [[]]
| c :: cs =>
  if c = ',' then [] :: splitCommaChars cs
  else
    match splitCommaChars cs with
    | [] => [[c]]
    | f :: rest => (c :: f) :: rest

/-- Python `s.split(",")`. -/
def pySplitComma (s : String) : List String :=
  (splitCommaChars s.toList).map String.mk

/-- Python `s.upper()` (ASCII case mapping, which covers every string the scripts handle). -/
def pyUpper (s : String) : String :=
  String.mk (s.toList.map Char.toUpper)

/-- Python `s.strip()`: remove leading and trailing whitespace. -/
def pyStrip (s : String) : String :=
  String.mk (((s.toList.dropWhile Char.isWhitespace).reverse.dropWhile Char.isWhitespace).reverse)

/-- Decimal digits to a natural number. -/
def digitsToNat (ds : List Char) : ℕ :=
  ds.foldl (fun acc c => acc * 10 + (c.toNat - 48)) 0

/-- Exponent part of Python `float(...)`: an optional sign followed by at least
one digit, consuming the whole remaining input. -/
def pyExp (mant : ℚ) (cs : List Char) : Option ℚ :=
  let p : ℤ × List Char :=
    match cs with
    | '+' :: rest => (1, rest)
    | '-' :: rest => (-1, rest)
    | _ => (1, cs)
  let ed := p.2.takeWhile Char.isDigit
  let r := p.2.dropWhile Char.isDigit
  if ed.isEmpty || !r.isEmpty then none
  else some (mant * (10 : ℚ) ^ (p.1 * (digitsToNat ed : ℤ)))

/-- Python `float(s)` on the finite decimal forms the instrument emits: optional
sign, digits with an optional decimal point (at least one digit overall), and an
optional `e`/`E` exponent; surrounding whitespace is stripped.  (Python's
special forms `inf`/`nan` and digit underscores are outside the wire format and
are not modelled.) -/
def pyFloat (s : String) : Option ℚ :=
  let cs := (pyStrip s).toList
  let p : ℚ × List Char :=
    match cs with
    | '+' :: rest => (1, rest)
    | '-' :: rest => (-1, rest)
    | _ => (1, cs)
  let ip := p.2.takeWhile Char.isDigit
  let r1 := p.2.dropWhile Char.isDigit
  let q : List Char × List Char :=
    match r1 with
    | '.' :: rest => (rest.takeWhile Char.isDigit, rest.dropWhile Char.isDigit)
    | _ => ([], r1)
  if ip.isEmpty && q.1.isEmpty then none
  else
    let mant : ℚ := p.1 * ((digitsToNat ip : ℚ) + (digitsToNat q.1 : ℚ) / (10 : ℚ) ^ q.1.length)
    match q.2 with
    | [] => some mant
    | 'e' :: rest => pyExp mant rest
    | 'E' :: rest => pyExp mant rest
    | _ => none

/-- `float(v) if v else 0.0` from `Teledyne_Final_W_Integrator.py` lines 269-272:
an empty (falsy) field becomes `0.0`, any other field goes through `float`. -/
def floatOrZero (s : String) : Option ℚ :=
  if s = "" then some 0 else pyFloat s

/-- From `Teledyne_Final_W_Integrator.py` lines 17-24: converts seconds to an
(hours, minutes, seconds) tuple for the SCPI timer command, clamping hours to 9999. -/
def seconds_to_hms (seconds : ℕ) : ℕ × ℕ × ℕ :=
  let h := seconds / 3600
  let m := (seconds % 3600) / 60
  let s := seconds % 60
  (min h 9999, m, s)

/-- Largest number of seconds the `H,M,S` timer encoding can hold: 9999h 59m 59s. -/
def maxEncodableSeconds : ℕ := 9999 * 3600 + 59 * 60 + 59

deriving instance DecidableEq for Except

/-- Decode failure for a numeric response line. -/
inductive DecodeError
| short (raw : String)
| parseError (raw : String)
deriving DecidableEq

/-- Numeric-response decode of `Teledyne_Final_W_Integrator.py` lines 266-272:
split on comma, require at least 4 fields (extras ignored), convert the first
four fields with the empty-field guard; a conversion failure is the
`ValueError` path, a short response the `len(values) >= 4` failure path.
Fields: peak voltage, current, instantaneous power, watt-hours. -/
def decodeIntegration (resp : String) : Except DecodeError (ℚ × ℚ × ℚ × ℚ) :=
  match pySplitComma resp with
  | v0 :: v1 :: v2 :: v3 :: _ =>
    match floatOrZero v0, floatOrZero v1, floatOrZero v2, floatOrZero v3 with
    | some pk, some cur, some ip, some wh => .ok (pk, cur, ip, wh)
    | _, _, _, _ => .error (.parseError resp)
  | _ => .error (.short resp)

/-- Numeric-response decode of `t3pm1006_avgAC.py` lines 139-144: split on
comma, require at least 3 fields (extras ignored), convert the first three
fields with bare `float` (no empty-field guard).
Fields: peak voltage, current, power. -/
def decodeAvg (resp : String) : Except DecodeError (ℚ × ℚ × ℚ) :=
  match pySplitComma resp with
  | v0 :: v1 :: v2 :: _ =>
    match pyFloat v0, pyFloat v1, pyFloat v2 with
    | some pk, some cur, some p => .ok (pk, cur, p)
    | _, _, _ => .error (.parseError resp)
  | _ => .error (.short resp)

/-- Average-power computation of `Teledyne_Final_W_Integrator.py` lines 276-280:
`watt_hours / interval_hours` with a near-zero guard on the denominator. -/
def average_power (interval_seconds watt_hours : ℚ) : ℚ :=
  let interval_hours := interval_seconds / 3600
  if 1 / 1000000000 < interval_hours then watt_hours / interval_hours else 0

/-- Byte decode used by `safe_serial_read` (`response_bytes.decode()`), modelled
on the ASCII fragment of the wire protocol: byte values above 127 are
non-decodable. -/
def decodeBytes (bs : List ℕ) : Option String :=
  if bs.all (· < 128) then some (String.mk (bs.map Char.ofNat)) else none

/-- What the transport produced for one `readline()` call. -/
inductive ReadEvent
| timedOut
| serialError
| received (bs : List ℕ)
deriving DecidableEq

/-- From `Teledyne_Final_W_Integrator.py` lines 45-64: returns the decoded,
stripped line when nonempty bytes arrive and decode; returns `none` when the
read times out (empty bytes), on a serial error, and on a decode error (the
distinctions are only printed, not returned). -/
def safe_serial_read : ReadEvent → Option String
| .timedOut => none
| .serialError => none
| .received bs =>
  if bs.isEmpty then none
  else
    match decodeBytes bs with
    | some s => some (pyStrip s)
    | none => none

/-- Device-reported integration state, normalized from free-form text. -/
inductive IntegrationState
| complete
| running
| stopped
| overflow
| unrecognized
deriving DecidableEq

/-- State classification of `Teledyne_Final_W_Integrator.py` lines 236-252,
applied to the upper-cased response text, in the source's branch order. -/
def classifyState (u : String) : IntegrationState :=
  if containsSub "TIM" u || containsSub "TIMEUP" u then .complete
  else if containsSub "RUN" u || containsSub "RUNNING" u then .running
  else if containsSub "STOP" u || containsSub "RESET" u then .stopped
  else if containsSub "OVERFLOW" u then .overflow
  else .unrecognized

/-- One iteration of the polling loop as seen from the outside: the wall-clock
reading at the top of the loop, whether the `:INTEGRATE:STATE?` write
succeeded, the wall-clock reading at the timeout re-check taken after a failed
write or failed read, and the `safe_serial_read` result. -/
structure PollEvent where
  tCheck : ℚ
  writeOk : Bool
  tRetry : ℚ
  read : Option String
deriving DecidableEq

/-- How the polling loop ended. `noMoreEvents` marks an exhausted event trace,
i.e. the real loop would still be polling. -/
inductive PollResult
| complete (raw : String)
| stopped (raw : String)
| overflow (raw : String)
| timeout
| noMoreEvents
deriving DecidableEq

/-- Polling-loop summary: final result, number of state-query write attempts,
number of `readline` calls. -/
structure PollRun where
  result : PollResult
  queries : ℕ
  reads : ℕ
deriving DecidableEq

/-- From `Teledyne_Final_W_Integrator.py` line 196:
`software_timeout_seconds = integration_interval_seconds * 1.5 + 5`. -/
def software_timeout_seconds (interval : ℚ) : ℚ :=
  interval * (3 / 2) + 5

/-- Polling loop of `Teledyne_Final_W_Integrator.py` lines 199-253: check the
software watchdog, send the state query (retrying after a failed write or a
failed read, each with its own watchdog re-check), and classify the response. -/
def pollLoop (t0 tmo : ℚ) : List PollEvent → PollRun
| [] => ⟨.noMoreEvents, 0, 0⟩
| e :: rest =>
  if tmo < e.tCheck - t0 then ⟨.timeout, 0, 0⟩
  else if e.writeOk = false then
    if tmo < e.tRetry - t0 then ⟨.timeout, 1, 0⟩
    else
      let r := pollLoop t0 tmo rest
      ⟨r.result, r.queries + 1, r.reads⟩
  else
    match e.read with
    | none =>
      if tmo < e.tRetry - t0 then ⟨.timeout, 1, 1⟩
      else
        let r := pollLoop t0 tmo rest
        ⟨r.result, r.queries + 1, r.reads + 1⟩
    | some s =>
      match classifyState (pyUpper s) with
      | .complete => ⟨.complete (pyUpper s), 1, 1⟩
      | .running =>
        let r := pollLoop t0 tmo rest
        ⟨r.result, r.queries + 1, r.reads + 1⟩
      | .stopped => ⟨.stopped (pyUpper s), 1, 1⟩
      | .overflow => ⟨.overflow (pyUpper s), 1, 1⟩
      | .unrecognized =>
        let r := pollLoop t0 tmo rest
        ⟨r.result, r.queries + 1, r.reads + 1⟩

/-- Commands the cycle body sends over the serial line. -/
inductive Cmd
| reset
| start
| stateQuery
| valueQuery
deriving DecidableEq

/-- One CSV cell: the timestamp column is text, the measurement columns are
numbers (their fixed-point rendering is presentation, not modelled). -/
inductive CsvCell
| str (s : String)
| num (x : ℚ)
deriving DecidableEq

/-- Externally observable inputs of one integration cycle: outcomes of the
reset and start writes, the polling-loop event trace with its entry time, the
outcome of the numeric-value query write, the `safe_serial_read` result for the
numeric response, and the cycle's timestamp. -/
structure CycleInput where
  resetOk : Bool
  startOk : Bool
  pollT0 : ℚ
  pollEvents : List PollEvent
  fetchWriteOk : Bool
  fetchResp : Option String
  timestamp : String
deriving DecidableEq

/-- Outcome of one integration cycle, matching the distinct failure paths of
`Teledyne_Final_W_Integrator.py` lines 180-316.  `stuck` marks an exhausted
polling trace (the real loop would still be polling). -/
inductive CycleOutcome
| success
| failedReset
| failedStart
| failedTimeout
| failedStopped (raw : String)
| failedOverflow (raw : String)
| failedFetchWrite
| failedNoResponse
| failedShort (raw : String)
| failedParse (raw : String)
| stuck
deriving DecidableEq

/-- Result of one cycle: its outcome, the commands it sent, and the CSV row it
appended (if any). -/
structure CycleResult where
  outcome : CycleOutcome
  trace : List Cmd
  row : Option (List CsvCell)
deriving DecidableEq

/-- One integration cycle, `Teledyne_Final_W_Integrator.py` lines 180-316:
reset, start, poll until a terminal classification, fetch the numeric values,
decode them, and append the CSV row
`[timestamp, average power, watt-hours, peak voltage, current, inst. power]`. -/
def runCycle (interval : ℚ) (ci : CycleInput) : CycleResult :=
  if ci.resetOk = false then ⟨.failedReset, [.reset], none⟩
  else if ci.startOk = false then ⟨.failedStart, [.reset, .start], none⟩
  else
    let pr := pollLoop ci.pollT0 (software_timeout_seconds interval) ci.pollEvents
    let ptrace := Cmd.reset :: Cmd.start :: List.replicate pr.queries Cmd.stateQuery
    match pr.result with
    | .timeout => ⟨.failedTimeout, ptrace, none⟩
    | .stopped u => ⟨.failedStopped u, ptrace, none⟩
    | .overflow u => ⟨.failedOverflow u, ptrace, none⟩
    | .noMoreEvents => ⟨.stuck, ptrace, none⟩
    | .complete _ =>
      if ci.fetchWriteOk = false then ⟨.failedFetchWrite, ptrace ++ [Cmd.valueQuery], none⟩
      else
        match ci.fetchResp with
        | none => ⟨.failedNoResponse, ptrace ++ [Cmd.valueQuery], none⟩
        | some resp =>
          match decodeIntegration resp with
          | .error (.short r) => ⟨.failedShort r, ptrace ++ [Cmd.valueQuery], none⟩
          | .error (.parseError r) => ⟨.failedParse r, ptrace ++ [Cmd.valueQuery], none⟩
          | .ok (pk, cur, ip, wh) =>
            ⟨.success, ptrace ++ [Cmd.valueQuery],
             some [CsvCell.str ci.timestamp, CsvCell.num (average_power interval wh),
                   CsvCell.num wh, CsvCell.num pk, CsvCell.num cur, CsvCell.num ip]⟩

/-- Whether the outer `while True` loop of lines 174-348 starts another cycle
after this outcome.  The `TimeoutError` handler (lines 330-334) and the
`SerialException`/`IOError` handlers `break`; every other per-cycle failure
falls through to the next cycle.  An exhausted polling trace (`stuck`) means
the loop is still inside this cycle. -/
def continuesAfter : CycleOutcome → Bool
| .failedTimeout => false
| .stuck => false
| _ => true

/-- Outer measurement loop of `Teledyne_Final_W_Integrator.py` lines 174-348
over a trace of per-cycle inputs: run a cycle, then continue or stop according
to its outcome's exception handler. -/
def session (interval : ℚ) : List CycleInput → List CycleResult
| [] => []
| ci :: rest =>
  let r := runCycle interval ci
  if continuesAfter r.outcome then r :: session interval rest else [r]

/-- Outcomes of the cycles the session actually ran. -/
def sessionOutcomes (interval : ℚ) (cis : List CycleInput) : List CycleOutcome :=
  (session interval cis).map CycleResult.outcome

/-- All commands the session sent, in order. -/
def sessionTrace (interval : ℚ) (cis : List CycleInput) : List Cmd :=
  ((session interval cis).map CycleResult.trace).foldr (· ++ ·) []

/-- Loop body of `t3pm1006_avgAC.py` lines 134-163: given the response to the
numeric-value query, append `[timestamp, peak voltage, current, power]` when at
least 3 fields arrive and all three parse, otherwise append nothing. -/
def avgCycleRow (timestamp : String) (resp : Option String) : Option (List CsvCell) :=
  match resp with
  | none => none
  | some r =>
    match decodeAvg r with
    | .ok (pk, cur, p) =>
      some [CsvCell.str timestamp, CsvCell.num pk, CsvCell.num cur, CsvCell.num p]
    | .error _ => none

/-- Externally observable inputs of the configuration phase
(`Teledyne_Final_W_Integrator.py` lines 67-121): success of each set-command
write, the IDN response, and for each advisory verification query whether its
write succeeded and what the read-back returned. -/
structure ConfigInput where
  idnWriteOk : Bool
  idnResp : Option String
  setModeOk : Bool
  setFuncOk : Bool
  setTimerOk : Bool
  qModeOk : Bool
  qModeResp : Option String
  qFuncOk : Bool
  qFuncResp : Option String
  qTimerOk : Bool
  qTimerResp : Option String
  setItem1Ok : Bool
  setItem2Ok : Bool
  setItem3Ok : Bool
  setItem4Ok : Bool
  setNumberOk : Bool
  qNumberOk : Bool
  qNumberResp : Option String
deriving DecidableEq

/-- Result of the configuration phase: `ok`, or `fatal` carrying the message of
the exception that aborted it (the script then calls `sys.exit(1)`). -/
inductive ConfigResult
| ok
| fatal (step : String)
deriving DecidableEq

/-- Configuration sequence of `Teledyne_Final_W_Integrator.py` lines 67-121:
each failed set-command write raises and aborts; verification queries only
collect read-backs for printing (returned here as the log) and never abort.
The log entries appear only when the verification query's write succeeded,
mirroring `if safe_serial_write(...): print(safe_serial_read(ser))`. -/
def configure (cfg : ConfigInput) : ConfigResult × List (Option String) :=
  if cfg.idnWriteOk = false then (.fatal "Failed to send *IDN?", [])
  else if cfg.idnResp.isNone then (.fatal "Failed to get IDN response", [])
  else if cfg.setModeOk = false then (.fatal "Failed to set integrate mode", [])
  else if cfg.setFuncOk = false then (.fatal "Failed to set integrate function", [])
  else if cfg.setTimerOk = false then (.fatal "Failed to set integrate timer", [])
  else
    let vlog := (if cfg.qModeOk then [cfg.qModeResp] else []) ++
                (if cfg.qFuncOk then [cfg.qFuncResp] else []) ++
                (if cfg.qTimerOk then [cfg.qTimerResp] else [])
    if cfg.setItem1Ok = false then (.fatal "Failed to set NUM ITEM1", vlog)
    else if cfg.setItem2Ok = false then (.fatal "Failed to set NUM ITEM2", vlog)
    else if cfg.setItem3Ok = false then (.fatal "Failed to set NUM ITEM3", vlog)
    else if cfg.setItem4Ok = false then (.fatal "Failed to set NUM ITEM4", vlog)
    else if cfg.setNumberOk = false then (.fatal "Failed to set NUM NUMBER", vlog)
    else (.ok, vlog ++ (if cfg.qNumberOk then [cfg.qNumberResp] else []))

/-- Whole script: a fatal configuration error calls `sys.exit(1)` before the
measurement loop, so no cycle runs; otherwise the session runs. -/
def program (cfg : ConfigInput) (interval : ℚ) (cycles : List CycleInput) : List CycleResult :=
  match (configure cfg).1 with
  | .fatal _ => []
  | .ok => session interval cycles

/-- `guardedFrom prev l`: walking `l` with `prev` as the preceding command,
every `start` is immediately preceded by a `reset`. -/
def guardedFrom : Cmd → List Cmd → Bool
| _, [] => true
| prev, c :: cs => (c ≠ Cmd.start || prev = Cmd.reset) && guardedFrom c cs

/-- Every `start` in the command list is immediately preceded by a `reset`
(in particular the list does not begin with `start`). -/
def startsGuarded (l : List Cmd) : Bool :=
  match l with
  | [] => true
  | c :: cs => c ≠ Cmd.start && guardedFrom c cs

/-! ## Theorems -/

/-- If every read in the trace classifies as `running` or `unrecognized` (the
device never reports a terminal state) and some iteration starts after the
watchdog bound, the polling loop ends in `timeout`. -/
theorem pollLoop_timeout_of_nonterminal (t0 tmo : ℚ) (evs : List PollEvent)
    (hnt : ∀ e ∈ evs, ∀ s, e.read = some s →
      classifyState (pyUpper s) = IntegrationState.running ∨
      classifyState (pyUpper s) = IntegrationState.unrecognized)
    (hlate : ∃ e ∈ evs, tmo < e.tCheck - t0) :
    (pollLoop t0 tmo evs).result = PollResult.timeout := by
  induction evs with
  | nil => simp at hlate
  | cons e rest ih =>
    have hnt' : ∀ e' ∈ rest, ∀ s, e'.read = some s →
        classifyState (pyUpper s) = IntegrationState.running ∨
        classifyState (pyUpper s) = IntegrationState.unrecognized :=
      fun e' he' => hnt e' (List.mem_cons_of_mem e he')
    by_cases h1 : tmo < e.tCheck - t0
    · simp [pollLoop, h1]
    · have hlate' : ∃ e' ∈ rest, tmo < e'.tCheck - t0 := by
        rcases hlate with ⟨e', he', hl⟩
        rcases List.mem_cons.mp he' with rfl | hmem
        · exact absurd hl h1
        · exact ⟨e', hmem, hl⟩
      have hrest := ih hnt' hlate'
      by_cases h2 : e.writeOk = false
      · by_cases h3 : tmo < e.tRetry - t0 <;> simp [pollLoop, h1, h2, h3, hrest]
      · rcases hr : e.read with _ | s
        · by_cases h3 : tmo < e.tRetry - t0 <;> simp [pollLoop, h1, h2, hr, h3, hrest]
        · rcases hnt e (List.mem_cons_self e rest) s hr with hc | hc <;>
            simp [pollLoop, h1, h2, hr, hc, hrest]

/-- A cycle whose reset and start writes succeed and whose polling trace times
out produces exactly the `failedTimeout` outcome with no row. -/
theorem runCycle_of_timeout (interval : ℚ) (ci : CycleInput)
    (hreset : ci.resetOk = true) (hstart : ci.startOk = true)
    (hpoll : (pollLoop ci.pollT0 (software_timeout_seconds interval) ci.pollEvents).result
      = PollResult.timeout) :
    (runCycle interval ci).outcome = CycleOutcome.failedTimeout := by
  unfold runCycle
  rw [hreset, hstart]
  simp only [Bool.true_eq_false, if_false, hpoll]

/-- C1 (amended): with the watchdog bound `interval * 1.5 + 5` seconds measured
from entry into polling, a device that never reports a terminal state within
the bound makes the cycle fail with `failedTimeout`; the session's
`TimeoutError` handler then exits the measurement loop, so no further cycle
runs — the session terminates rather than proceeding to the next cycle. -/
theorem C1_timeout_ends_session (interval t0 : ℚ) (evs : List PollEvent)
    (ci : CycleInput) (rest : List CycleInput)
    (hreset : ci.resetOk = true) (hstart : ci.startOk = true)
    (ht0 : ci.pollT0 = t0) (hevs : ci.pollEvents = evs)
    (hnt : ∀ e ∈ evs, ∀ s, e.read = some s →
      classifyState (pyUpper s) = IntegrationState.running ∨
      classifyState (pyUpper s) = IntegrationState.unrecognized)
    (hlate : ∃ e ∈ evs, interval * (3 / 2) + 5 < e.tCheck - t0) :
    (runCycle interval ci).outcome = CycleOutcome.failedTimeout ∧
    sessionOutcomes interval (ci :: rest) = [CycleOutcome.failedTimeout] := by
  have hlate' : ∃ e ∈ evs, software_timeout_seconds interval < e.tCheck - t0 := by
    simpa [software_timeout_seconds] using hlate
  have hpoll : (pollLoop ci.pollT0 (software_timeout_seconds interval) ci.pollEvents).result
      = PollResult.timeout := by
    rw [ht0, hevs]
    exact pollLoop_timeout_of_nonterminal t0 (software_timeout_seconds interval) evs hnt hlate'
  have hrc := runCycle_of_timeout interval ci hreset hstart hpoll
  refine ⟨hrc, ?_⟩
  unfold sessionOutcomes session
  simp [continuesAfter, hrc]

/-- Witness for C1: a 10-second interval (watchdog 20 s), a `RUNNING` read at
t = 0, then an iteration entered at t = 21; a would-be second cycle never runs. -/
theorem C1_witness :
    (runCycle 10 ⟨true, true, 0, [⟨0, true, 0, some "RUNNING"⟩, ⟨21, true, 21, none⟩],
      true, some "1,2,3,0", "T"⟩).outcome = CycleOutcome.failedTimeout ∧
    sessionOutcomes 10
      [⟨true, true, 0, [⟨0, true, 0, some "RUNNING"⟩, ⟨21, true, 21, none⟩],
        true, some "1,2,3,0", "T"⟩,
       ⟨true, true, 0, [⟨0, true, 0, some "TIM"⟩], true, some "1,2,3,0", "T"⟩]
      = [CycleOutcome.failedTimeout] :=
  C1_timeout_ends_session 10 0 [⟨0, true, 0, some "RUNNING"⟩, ⟨21, true, 21, none⟩]
    ⟨true, true, 0, [⟨0, true, 0, some "RUNNING"⟩, ⟨21, true, 21, none⟩],
      true, some "1,2,3,0", "T"⟩
    [⟨true, true, 0, [⟨0, true, 0, some "TIM"⟩], true, some "1,2,3,0", "T"⟩]
    rfl rfl rfl rfl
    (by
      intro e he s hs
      rcases List.mem_cons.mp he with rfl | he'
      · left
        cases hs
        decide
      · rcases List.mem_cons.mp he' with rfl | he''
        · cases hs
        · cases he'')
    ⟨⟨21, true, 21, none⟩, by simp, by norm_num⟩

/-- C1 counterexample: after the watchdog expires the session does not proceed
to the next cycle — with a second, well-formed cycle queued, the session still
produces exactly one outcome, the `Timeout` failure, because the
`TimeoutError` handler breaks out of the measurement loop. -/
theorem C1_counterexample :
    sessionOutcomes 10
      [⟨true, true, 0, [⟨0, true, 0, some "RUNNING"⟩, ⟨21, true, 21, none⟩],
        true, some "1,2,3,0", "T"⟩,
       ⟨true, true, 0, [⟨0, true, 0, some "TIM"⟩], true, some "1,2,3,0", "T"⟩]
      = [CycleOutcome.failedTimeout] ∧
    (runCycle 10 ⟨true, true, 0, [⟨0, true, 0, some "TIM"⟩], true, some "1,2,3,0", "T"⟩).outcome
      = CycleOutcome.success := by
  with_unfolding_all decide

/-- C3: on the state sequence `RUNNING, RUNNING, TIMEUP` the polling loop does
exactly 3 state reads, classifies completion and the cycle proceeds to the
numeric-value fetch (the trace ends with the value query and the cycle
succeeds); on `STOP` the cycle aborts after the single first read — the second
queued event is never consumed and no value query is sent. -/
theorem C3_poll_sequences :
    pollLoop 0 (software_timeout_seconds 10)
      [⟨0, true, 0, some "RUNNING"⟩, ⟨1, true, 1, some "RUNNING"⟩, ⟨2, true, 2, some "TIMEUP"⟩]
      = ⟨PollResult.complete "TIMEUP", 3, 3⟩ ∧
    (runCycle 10 ⟨true, true, 0,
      [⟨0, true, 0, some "RUNNING"⟩, ⟨1, true, 1, some "RUNNING"⟩, ⟨2, true, 2, some "TIMEUP"⟩],
      true, some "1,2,3,0", "T"⟩).trace
      = [Cmd.reset, Cmd.start, Cmd.stateQuery, Cmd.stateQuery, Cmd.stateQuery, Cmd.valueQuery] ∧
    (runCycle 10 ⟨true, true, 0,
      [⟨0, true, 0, some "RUNNING"⟩, ⟨1, true, 1, some "RUNNING"⟩, ⟨2, true, 2, some "TIMEUP"⟩],
      true, some "1,2,3,0", "T"⟩).outcome = CycleOutcome.success ∧
    pollLoop 0 (software_timeout_seconds 10)
      [⟨0, true, 0, some "STOP"⟩, ⟨1, true, 1, some "RUNNING"⟩]
      = ⟨PollResult.stopped "STOP", 1, 1⟩ ∧
    (runCycle 10 ⟨true, true, 0, [⟨0, true, 0, some "STOP"⟩, ⟨1, true, 1, some "RUNNING"⟩],
      true, some "1,2,3,0", "T"⟩).trace = [Cmd.reset, Cmd.start, Cmd.stateQuery] ∧
    (runCycle 10 ⟨true, true, 0, [⟨0, true, 0, some "STOP"⟩, ⟨1, true, 1, some "RUNNING"⟩],
      true, some "1,2,3,0", "T"⟩).outcome = CycleOutcome.failedStopped "STOP" := by
  with_unfolding_all decide

set_option maxHeartbeats 4000000

/-- C8: configuration succeeds exactly when the IDN exchange and every
set-command write succeed; a fatal configuration result means the script exits
before any measurement cycle runs; and the advisory verification queries
(read-backs) never influence the configuration result. -/
theorem C8_config_aborts_on_set_failure (cfg : ConfigInput) :
    ((configure cfg).1 = ConfigResult.ok ↔
      cfg.idnWriteOk = true ∧ cfg.idnResp.isSome = true ∧ cfg.setModeOk = true ∧
      cfg.setFuncOk = true ∧ cfg.setTimerOk = true ∧ cfg.setItem1Ok = true ∧
      cfg.setItem2Ok = true ∧ cfg.setItem3Ok = true ∧ cfg.setItem4Ok = true ∧
      cfg.setNumberOk = true) ∧
    ((configure cfg).1 ≠ ConfigResult.ok →
      ∀ (interval : ℚ) (cycles : List CycleInput), program cfg interval cycles = []) ∧
    (∀ q1 r1 q2 r2 q3 r3 q4 r4,
      (configure { cfg with qModeOk := q1, qModeResp := r1, qFuncOk := q2, qFuncResp := r2,
                            qTimerOk := q3, qTimerResp := r3, qNumberOk := q4,
                            qNumberResp := r4 }).1
        = (configure cfg).1) := by
  refine ⟨?_, ?_, ?_⟩
  · obtain ⟨iw, ir, sm, sf, st, a1, a2, a3, a4, a5, a6, s1, s2, s3, s4, sn, a7, a8⟩ := cfg
    rcases ir with _ | v <;>
      simp only [configure, apply_ite Prod.fst] <;> split_ifs <;> simp_all
  · intro hne interval cycles
    unfold program
    rcases hc : (configure cfg).1 with _ | step
    · exact absurd hc hne
    · rfl
  · intro q1 r1 q2 r2 q3 r3 q4 r4
    obtain ⟨iw, ir, sm, sf, st, a1, a2, a3, a4, a5, a6, s1, s2, s3, s4, sn, a7, a8⟩ := cfg
    simp only [configure, apply_ite Prod.fst]

/-- Witness for C8: a failed integrate-mode set write yields a fatal result
and the program runs zero cycles. -/
theorem C8_witness :
    program ⟨true, some "X", false, true, true, true, none, true, none, true, none,
      true, true, true, true, true, true, none⟩ 10
      [⟨true, true, 0, [⟨0, true, 0, some "TIM"⟩], true, some "1,2,3,0", "T"⟩] = [] :=
  (C8_config_aborts_on_set_failure _).2.1 (by decide) 10 _

set_option maxHeartbeats 200000


/-- C2: for every second count up to the protocol maximum (9999h 59m 59s), the
conversion is `h = s / 3600` (the clamp is inactive), `m = s % 3600 / 60`,
`s' = s % 60`, and it round-trips exactly with `m, s' < 60`. -/
theorem C2_seconds_to_hms_roundtrip (s : ℕ) (h : s ≤ maxEncodableSeconds) :
    seconds_to_hms s = (s / 3600, s % 3600 / 60, s % 60) ∧
    (s / 3600) * 3600 + (s % 3600 / 60) * 60 + s % 60 = s ∧
    s / 3600 ≤ 9999 ∧ s % 3600 / 60 < 60 ∧ s % 60 < 60 := by
  have hmax : maxEncodableSeconds = 35999999 := by norm_num [maxEncodableSeconds]
  rw [hmax] at h
  have hh : s / 3600 ≤ 9999 := by omega
  refine ⟨?_, by omega, hh, by omega, by omega⟩
  simp [seconds_to_hms, Nat.min_eq_left hh]

/-- Witness for C2 at 3725 seconds = 1h 2m 5s. -/
theorem C2_witness : seconds_to_hms 3725 = (3725 / 3600, 3725 % 3600 / 60, 3725 % 60) :=
  (C2_seconds_to_hms_roundtrip 3725 (by norm_num [maxEncodableSeconds])).1

/-- C7: in integration mode the derived average power is
`watt_hours / (interval / 3600)` whenever the interval in hours exceeds the
near-zero guard `1e-9`, and `0` when it is at or below the guard; at the
spec's sample (interval 10 s, energy 0.002778 Wh) the result is 1.00008 W,
within 0.001 of 1 W. -/
theorem C7_average_power_guarded (i wh : ℚ) :
    (1 / 1000000000 < i / 3600 → average_power i wh = wh / (i / 3600)) ∧
    (i / 3600 ≤ 1 / 1000000000 → average_power i wh = 0) ∧
    average_power 10 (2778 / 1000000) = 12501 / 12500 ∧
    |average_power 10 (2778 / 1000000) - 1| < 1 / 1000 := by
  refine ⟨fun h => ?_, fun h => ?_, ?_, ?_⟩
  · simp only [average_power]
    rw [if_pos h]
  · simp only [average_power]
    rw [if_neg (not_lt.mpr h)]
  · norm_num [average_power]
  · have h : average_power 10 (2778 / 1000000) = 12501 / 12500 := by norm_num [average_power]
    rw [h]
    rw [abs_lt]
    constructor <;> norm_num

/-- Witness for C7: a 10-second interval is above the guard, a 0-second
interval is at or below it. -/
theorem C7_witness : average_power 10 3 = 3 / (10 / 3600) ∧ average_power 0 5 = 0 :=
  ⟨(C7_average_power_guarded 10 3).1 (by norm_num),
   (C7_average_power_guarded 0 5).2.1 (by norm_num)⟩

/-- C6 counterexample: a timed-out read and a non-decodable read both return
`none` from `safe_serial_read` — they are not distinguishable at the function's
boundary, and no raw bytes are returned. -/
theorem C6_counterexample :
    safe_serial_read ReadEvent.timedOut = none ∧
    decodeBytes [255] = none ∧
    safe_serial_read (ReadEvent.received [255]) = none ∧
    safe_serial_read ReadEvent.timedOut = safe_serial_read (ReadEvent.received [255]) := by
  decide

/-- C6 (amended): `safe_serial_read` returns the decoded, stripped text on a
successful read, and returns `none` uniformly for a timed-out (empty) read, a
serial error, and non-decodable bytes; the distinctions and the raw bytes
appear only in printed diagnostics, not in the returned value. -/
theorem C6_read_outcomes_collapse :
    safe_serial_read ReadEvent.timedOut = none ∧
    safe_serial_read ReadEvent.serialError = none ∧
    safe_serial_read (ReadEvent.received []) = none ∧
    (∀ bs, decodeBytes bs = none → safe_serial_read (ReadEvent.received bs) = none) ∧
    (∀ bs s, bs ≠ [] → decodeBytes bs = some s →
      safe_serial_read (ReadEvent.received bs) = some (pyStrip s)) := by
  refine ⟨rfl, rfl, rfl, fun bs h => ?_, fun bs s hne h => ?_⟩
  · cases bs with
    | nil => rfl
    | cons b t => simp [safe_serial_read, h]
  · cases bs with
    | nil => exact absurd rfl hne
    | cons b t => simp [safe_serial_read, h]

/-- Witness for C6 at the bytes of `"HI "`. -/
theorem C6_witness :
    safe_serial_read (ReadEvent.received [72, 73, 32]) = some (pyStrip "HI ") :=
  C6_read_outcomes_collapse.2.2.2.2 [72, 73, 32] "HI " (by decide) (by decide)

/-- C4 counterexample: `"abc,1,2,3"` has 4 comma-separated fields, yet the
integration decode fails (the first field is not a number), contradicting
"for every response line with at least N fields, decoding succeeds". -/
theorem C4_counterexample :
    (pySplitComma "abc,1,2,3").length = 4 ∧
    decodeIntegration "abc,1,2,3" = .error (.parseError "abc,1,2,3") := by
  decide

/-- C4 (amended): a response whose first N fields each convert (N = 4 in the
integration path with the empty-field guard, N = 3 in the averaging path with
bare `float`) decodes to those N values, ignoring any extra fields; a response
with fewer than N fields fails with the raw text preserved, and in a cycle
that reaches the fetch such a short response marks the cycle failed carrying
the raw text. -/
theorem C4_decode_requires_n_fields (r : String) :
    (∀ a b c d rest, pySplitComma r = a :: b :: c :: d :: rest →
      ∀ x y z w, floatOrZero a = some x → floatOrZero b = some y →
        floatOrZero c = some z → floatOrZero d = some w →
        decodeIntegration r = .ok (x, y, z, w)) ∧
    ((pySplitComma r).length < 4 → decodeIntegration r = .error (.short r)) ∧
    (∀ a b c rest, pySplitComma r = a :: b :: c :: rest →
      ∀ x y z, pyFloat a = some x → pyFloat b = some y → pyFloat c = some z →
        decodeAvg r = .ok (x, y, z)) ∧
    ((pySplitComma r).length < 3 → decodeAvg r = .error (.short r)) ∧
    (∀ (interval : ℚ) (ci : CycleInput), ci.resetOk = true → ci.startOk = true →
      ci.fetchWriteOk = true → ci.fetchResp = some r →
      (∃ u, (pollLoop ci.pollT0 (software_timeout_seconds interval) ci.pollEvents).result
        = PollResult.complete u) →
      (pySplitComma r).length < 4 →
      (runCycle interval ci).outcome = CycleOutcome.failedShort r) := by
  refine ⟨?_, ?_, ?_, ?_, ?_⟩
  · intro a b c d rest hsplit x y z w hx hy hz hw
    simp [decodeIntegration, hsplit, hx, hy, hz, hw]
  · intro hlen
    unfold decodeIntegration
    rcases hs : pySplitComma r with _ | ⟨a, _ | ⟨b, _ | ⟨c, _ | ⟨d, t⟩⟩⟩⟩ <;> simp_all
    omega
  · intro a b c rest hsplit x y z hx hy hz
    simp [decodeAvg, hsplit, hx, hy, hz]
  · intro hlen
    unfold decodeAvg
    rcases hs : pySplitComma r with _ | ⟨a, _ | ⟨b, _ | ⟨c, t⟩⟩⟩ <;> simp_all
    omega
  · intro interval ci hr hs hf hresp ⟨u, hpoll⟩ hlen
    have hshort : decodeIntegration r = .error (.short r) := by
      unfold decodeIntegration
      rcases hsp : pySplitComma r with _ | ⟨a, _ | ⟨b, _ | ⟨c, _ | ⟨d, t⟩⟩⟩⟩ <;> simp_all
      omega
    unfold runCycle
    rw [hr, hs]
    simp only [Bool.true_eq_false, if_false, hpoll, hf, hresp, hshort]

/-- Witness for C4 on `"1,2,3,4,9"` (extra field ignored), `"1,2"` (short for
the integration path), `"1,2,3,9"`, and `"1"` (short for the averaging path). -/
theorem C4_witness :
    decodeIntegration "1,2,3,4,9" = .ok (1, 2, 3, 4) ∧
    decodeIntegration "1,2" = .error (.short "1,2") ∧
    decodeAvg "1,2,3,9" = .ok (1, 2, 3) ∧
    decodeAvg "1" = .error (.short "1") :=
  ⟨(C4_decode_requires_n_fields "1,2,3,4,9").1 "1" "2" "3" "4" ["9"] (by decide)
      1 2 3 4 (by with_unfolding_all decide) (by with_unfolding_all decide)
      (by with_unfolding_all decide) (by with_unfolding_all decide),
   (C4_decode_requires_n_fields "1,2").2.1 (by decide),
   (C4_decode_requires_n_fields "1,2,3,9").2.2.1 "1" "2" "3" ["9"] (by decide)
      1 2 3 (by with_unfolding_all decide) (by with_unfolding_all decide)
      (by with_unfolding_all decide),
   (C4_decode_requires_n_fields "1").2.2.2.1 (by decide)⟩

/-- C5 counterexample: in the averaging path an empty first field is a parse
error, not the value 0.0 — `",1,2"` has 3 fields but fails to decode. -/
theorem C5_counterexample :
    (pySplitComma ",1,2").length = 3 ∧
    decodeAvg ",1,2" = .error (.parseError ",1,2") := by
  decide

/-- C5 (amended): in the integration path an empty field string is treated as
0.0 at every one of the four decoded positions; in the averaging path (bare
`float`, no guard) an empty field at any of the three positions makes the
decode fail. -/
theorem C5_empty_field_zero_only_in_integration (r a b c d : String) (rest : List String)
    (hsplit : pySplitComma r = a :: b :: c :: d :: rest) :
    (a = "" → ∀ y z w, floatOrZero b = some y → floatOrZero c = some z →
      floatOrZero d = some w → decodeIntegration r = .ok (0, y, z, w)) ∧
    (b = "" → ∀ x z w, floatOrZero a = some x → floatOrZero c = some z →
      floatOrZero d = some w → decodeIntegration r = .ok (x, 0, z, w)) ∧
    (c = "" → ∀ x y w, floatOrZero a = some x → floatOrZero b = some y →
      floatOrZero d = some w → decodeIntegration r = .ok (x, y, 0, w)) ∧
    (d = "" → ∀ x y z, floatOrZero a = some x → floatOrZero b = some y →
      floatOrZero c = some z → decodeIntegration r = .ok (x, y, z, 0)) ∧
    (a = "" → decodeAvg r = .error (.parseError r)) ∧
    (b = "" → decodeAvg r = .error (.parseError r)) ∧
    (c = "" → decodeAvg r = .error (.parseError r)) := by
  have hz : floatOrZero "" = some 0 := rfl
  have hn : pyFloat "" = none := rfl
  refine ⟨?_, ?_, ?_, ?_, ?_, ?_, ?_⟩
  · intro ha y z w hy hz2 hw
    subst ha
    simp [decodeIntegration, hsplit, hz, hy, hz2, hw]
  · intro hb x z w hx hz2 hw
    subst hb
    simp [decodeIntegration, hsplit, hz, hx, hz2, hw]
  · intro hc x y w hx hy hw
    subst hc
    simp [decodeIntegration, hsplit, hz, hx, hy, hw]
  · intro hd x y z hx hy hz2
    subst hd
    simp [decodeIntegration, hsplit, hz, hx, hy, hz2]
  · intro ha
    subst ha
    simp [decodeAvg, hsplit, hn]
  · intro hb
    subst hb
    rcases hfa : pyFloat a with _ | x <;> simp [decodeAvg, hsplit, hn, hfa]
  · intro hc
    subst hc
    rcases hfa : pyFloat a with _ | x <;> rcases hfb : pyFloat b with _ | y <;>
      simp [decodeAvg, hsplit, hn, hfa, hfb]

/-- Witness for C5 at the all-empty response `",,,"`. -/
theorem C5_witness :
    decodeIntegration ",,," = .ok (0, 0, 0, 0) ∧
    decodeAvg ",,," = .error (.parseError ",,,") :=
  ⟨(C5_empty_field_zero_only_in_integration ",,," "" "" "" "" [] (by decide)).1 rfl
      0 0 0 rfl rfl rfl,
   (C5_empty_field_zero_only_in_integration ",,," "" "" "" "" [] (by decide)).2.2.2.2.1 rfl⟩


/-- Appending traces: guardedness of a concatenation splits at the boundary,
with the last element of the first part as the new predecessor. -/
theorem guardedFrom_append (prev : Cmd) (xs ys : List Cmd) :
    guardedFrom prev (xs ++ ys)
      = (guardedFrom prev xs && guardedFrom (xs.getLastD prev) ys) := by
  induction xs generalizing prev with
  | nil => simp [guardedFrom]
  | cons c cs ih =>
    simp only [List.cons_append, List.append_eq, guardedFrom, ih, List.getLastD_cons,
      Bool.and_assoc]

/-- A list with no `start` command is guarded from any predecessor. -/
theorem guardedFrom_of_no_start (prev : Cmd) (l : List Cmd)
    (h : ∀ c ∈ l, c ≠ Cmd.start) : guardedFrom prev l = true := by
  induction l generalizing prev with
  | nil => rfl
  | cons c cs ih =>
    have hc := h c (List.mem_cons_self c cs)
    simp [guardedFrom, hc, ih c (fun c' hc' => h c' (List.mem_cons_of_mem c hc'))]

/-- Every cycle's command trace is `reset` alone (failed reset write) or
`reset, start` followed by some number of state queries and at most one value
query. -/
theorem runCycle_trace_shape (interval : ℚ) (ci : CycleInput) :
    (runCycle interval ci).trace = [Cmd.reset] ∨
    ∃ n m, m ≤ 1 ∧ (runCycle interval ci).trace =
      Cmd.reset :: Cmd.start ::
        (List.replicate n Cmd.stateQuery ++ List.replicate m Cmd.valueQuery) := by
  unfold runCycle
  by_cases h1 : ci.resetOk = false
  · rw [if_pos h1]
    exact Or.inl rfl
  rw [if_neg h1]
  by_cases h2 : ci.startOk = false
  · rw [if_pos h2]
    exact Or.inr ⟨0, 0, Nat.zero_le 1, rfl⟩
  rw [if_neg h2]
  right
  set q := (pollLoop ci.pollT0 (software_timeout_seconds interval) ci.pollEvents).queries with hq
  rcases hres : (pollLoop ci.pollT0 (software_timeout_seconds interval) ci.pollEvents).result
    with u | u | u | _ | _ <;> simp only [hres]
  · by_cases h3 : ci.fetchWriteOk = false
    · rw [if_pos h3]
      exact ⟨q, 1, le_refl 1, by simp⟩
    rw [if_neg h3]
    rcases hf : ci.fetchResp with _ | resp
    · exact ⟨q, 1, le_refl 1, by simp⟩
    rcases hd : decodeIntegration resp with e | v
    · rcases e with r | r <;> simp only [hd] <;> exact ⟨q, 1, le_refl 1, by simp⟩
    · rcases v with ⟨pk, cur, ip, wh⟩
      simp only [hd]
      exact ⟨q, 1, le_refl 1, by simp⟩
  · exact ⟨q, 0, Nat.zero_le 1, by simp⟩
  · exact ⟨q, 0, Nat.zero_le 1, by simp⟩
  · exact ⟨q, 0, Nat.zero_le 1, by simp⟩
  · exact ⟨q, 0, Nat.zero_le 1, by simp⟩

/-- Every cycle trace is guarded from any predecessor command. -/
theorem guardedFrom_runCycle (interval : ℚ) (ci : CycleInput) (prev : Cmd) :
    guardedFrom prev (runCycle interval ci).trace = true := by
  rcases runCycle_trace_shape interval ci with h | ⟨n, m, hm, h⟩ <;> rw [h]
  · simp [guardedFrom]
  · simp only [guardedFrom]
    have : guardedFrom Cmd.start
        (List.replicate n Cmd.stateQuery ++ List.replicate m Cmd.valueQuery) = true := by
      apply guardedFrom_of_no_start
      intro c hc
      rcases List.mem_append.mp hc with hc' | hc' <;>
        rw [List.eq_of_mem_replicate hc'] <;> decide
    simp [this]

/-- The session trace splits cycle by cycle. -/
theorem sessionTrace_cons (interval : ℚ) (ci : CycleInput) (rest : List CycleInput) :
    sessionTrace interval (ci :: rest) =
      (runCycle interval ci).trace ++
        (if continuesAfter (runCycle interval ci).outcome = true
          then sessionTrace interval rest else []) := by
  by_cases h : continuesAfter (runCycle interval ci).outcome = true <;>
    cases rest <;> simp [sessionTrace, session, h]

/-- The whole session trace is guarded from any predecessor command. -/
theorem guardedFrom_sessionTrace (interval : ℚ) (cis : List CycleInput) (prev : Cmd) :
    guardedFrom prev (sessionTrace interval cis) = true := by
  induction cis generalizing prev with
  | nil => rfl
  | cons ci rest ih =>
    rw [sessionTrace_cons, guardedFrom_append]
    rw [guardedFrom_runCycle]
    by_cases h : continuesAfter (runCycle interval ci).outcome = true <;>
      simp [h, ih, guardedFrom]

/-- Guardedness from a non-reset predecessor gives the headless form. -/
theorem startsGuarded_of_guardedFrom (l : List Cmd)
    (h : guardedFrom Cmd.stateQuery l = true) : startsGuarded l = true := by
  cases l with
  | nil => rfl
  | cons c cs =>
    simp only [guardedFrom, Bool.and_eq_true] at h
    rcases h with ⟨h1, h2⟩
    have hc : c ≠ Cmd.start := by
      intro hcs
      subst hcs
      simp at h1
    simp [startsGuarded, hc, h2]

/-- C9: each cycle sends `reset` first, then (if the reset write succeeded)
`start`, then only state queries and at most one value query — and across the
whole session every `start` command is immediately preceded by a `reset`, so a
new integration is never started before the previous cycle's polling reached a
terminal classification and the integrator was reset again. -/
theorem C9_reset_precedes_start (interval : ℚ) (ci : CycleInput) (cis : List CycleInput) :
    ((runCycle interval ci).trace = [Cmd.reset] ∨
      ∃ n m, m ≤ 1 ∧ (runCycle interval ci).trace =
        Cmd.reset :: Cmd.start ::
          (List.replicate n Cmd.stateQuery ++ List.replicate m Cmd.valueQuery)) ∧
    startsGuarded (sessionTrace interval cis) = true :=
  ⟨runCycle_trace_shape interval ci,
   startsGuarded_of_guardedFrom _ (guardedFrom_sessionTrace interval cis Cmd.stateQuery)⟩

/-- A cycle either writes no row, or it writes exactly the six-column row built
from a response that decoded successfully. -/
theorem runCycle_row_cases (interval : ℚ) (ci : CycleInput) :
    (runCycle interval ci).row = none ∨
    ∃ r pk cur ip wh, ci.fetchResp = some r ∧
      decodeIntegration r = Except.ok (pk, cur, ip, wh) ∧
      (runCycle interval ci).row =
        some [CsvCell.str ci.timestamp, CsvCell.num (average_power interval wh),
          CsvCell.num wh, CsvCell.num pk, CsvCell.num cur, CsvCell.num ip] := by
  unfold runCycle
  by_cases h1 : ci.resetOk = false
  · rw [if_pos h1]
    exact Or.inl rfl
  rw [if_neg h1]
  by_cases h2 : ci.startOk = false
  · rw [if_pos h2]
    exact Or.inl rfl
  rw [if_neg h2]
  rcases hres : (pollLoop ci.pollT0 (software_timeout_seconds interval) ci.pollEvents).result
    with u | u | u | _ | _ <;> simp only [hres]
  · by_cases h3 : ci.fetchWriteOk = false
    · rw [if_pos h3]
      exact Or.inl (by simp)
    rw [if_neg h3]
    rcases hf : ci.fetchResp with _ | resp
    · simp only [hf]
      exact Or.inl (by simp)
    simp only [hf]
    rcases hd : decodeIntegration resp with e | v
    · rcases e with r | r <;> simp only [hd] <;> exact Or.inl (by simp)
    · rcases v with ⟨pk, cur, ip, wh⟩
      simp only [hd]
      refine Or.inr ⟨resp, pk, cur, ip, wh, rfl, hd, ?_⟩
      simp
  · exact Or.inl (by simp)
  · exact Or.inl (by simp)
  · exact Or.inl (by simp)
  · exact Or.inl (by simp)

/-- C10: a CSV row is appended only when the numeric response arrived, had at
least the required number of fields, and every used field converted; any short
response, parse failure, or missing response writes nothing, and every written
row carries the full set of columns (6 in the integration script, 4 in the
averaging script). -/
theorem C10_rows_atomic (interval : ℚ) (ci : CycleInput) (ts : String) (resp : Option String) :
    (∀ row, (runCycle interval ci).row = some row → row.length = 6 ∧
      ∃ r v, ci.fetchResp = some r ∧ decodeIntegration r = Except.ok v) ∧
    (ci.fetchResp = none → (runCycle interval ci).row = none) ∧
    (∀ r e, ci.fetchResp = some r → decodeIntegration r = Except.error e →
      (runCycle interval ci).row = none) ∧
    (∀ row, avgCycleRow ts resp = some row → row.length = 4 ∧
      ∃ r v, resp = some r ∧ decodeAvg r = Except.ok v) ∧
    (resp = none → avgCycleRow ts resp = none) ∧
    (∀ r e, resp = some r → decodeAvg r = Except.error e → avgCycleRow ts resp = none) := by
  refine ⟨?_, ?_, ?_, ?_, ?_, ?_⟩
  · intro row hrow
    rcases runCycle_row_cases interval ci with h | ⟨r, pk, cur, ip, wh, hr, hd, h⟩
    · rw [h] at hrow
      cases hrow
    · rw [h] at hrow
      injection hrow with hrow
      subst hrow
      exact ⟨rfl, r, (pk, cur, ip, wh), hr, hd⟩
  · intro hnone
    rcases runCycle_row_cases interval ci with h | ⟨r, pk, cur, ip, wh, hr, hd, h⟩
    · exact h
    · rw [hnone] at hr
      cases hr
  · intro r e hr hd'
    rcases runCycle_row_cases interval ci with h | ⟨r', pk, cur, ip, wh, hr', hd, h⟩
    · exact h
    · rw [hr] at hr'
      injection hr' with hr'
      subst hr'
      rw [hd'] at hd
      cases hd
  · intro row hrow
    rcases resp with _ | r
    · cases hrow
    · simp only [avgCycleRow] at hrow
      rcases hd : decodeAvg r with e | v
      · rw [hd] at hrow
        cases hrow
      · rcases v with ⟨pk, cur, p⟩
        rw [hd] at hrow
        injection hrow with hrow
        subst hrow
        exact ⟨rfl, r, (pk, cur, p), rfl, hd⟩
  · intro hnone
    subst hnone
    rfl
  · intro r e hr hd
    subst hr
    simp only [avgCycleRow, hd]

/-- Witness for C10: a completed cycle with response `"1,2,3,0"` writes the
full six-column row. -/
theorem C10_witness :
    ([CsvCell.str "T", CsvCell.num 0, CsvCell.num 0, CsvCell.num 1, CsvCell.num 2,
      CsvCell.num 3] : List CsvCell).length = 6 ∧
    ∃ r v, (some "1,2,3,0" : Option String) = some r ∧ decodeIntegration r = Except.ok v :=
  (C10_rows_atomic 10 ⟨true, true, 0, [⟨0, true, 0, some "TIM"⟩], true, some "1,2,3,0", "T"⟩
      "T" none).1
    [CsvCell.str "T", CsvCell.num 0, CsvCell.num 0, CsvCell.num 1, CsvCell.num 2, CsvCell.num 3]
    (by with_unfolding_all decide)


end Teledyne
